import Mathlib

/-
Verification development for the talkops-home-assistant bridge adapter.

The source is two near-duplicate variants of the same logic
(`src/index.mjs` and `src/src/main.mjs`).  We shallowly embed the
connection-and-synchronization manager: JavaScript `Map`s become
functions `String → Option String` (`get` returns `undefined` ≙ `none`),
the mutable module state becomes an explicit `AppState` record, socket
sends become an explicit list of `Frame`s, and each message-handler
block becomes a pure state transformer.
-/

namespace TalkopsHA

/-- A JavaScript `Map` from string keys to string values, observed only
through `get` (which yields `undefined`, i.e. `none`, for missing keys). -/
abbrev JMap := String → Option String

/-- `Map.prototype.set`: later writes shadow earlier ones. -/
def jset (m : JMap) (k v : String) : JMap :=
  fun x => if x = k then some v else m x

/-- Removal of a key (used to model mutating a cache snapshot). -/
def jdelete (m : JMap) (k : String) : JMap :=
  fun x => if x = k then none else m x

/-- A `Map` with no entries. -/
def emptyJMap : JMap := fun _ => none

/-- JavaScript truthiness of a possibly-undefined string value:
`undefined` and the empty string are falsy, every other string truthy. -/
def truthy : Option String → Bool
  | none => false
  | some s => s != ""

/-- JavaScript `a || b` on possibly-undefined string values
(used for `entity.name || entity.original_name`). -/
def jsOr (a b : Option String) : Option String :=
  if truthy a then a else b

/-- One element of a `get_states` result payload: `entity_id`, `state`,
and `attributes.unit_of_measurement` (absent unless the entity reports one). -/
structure StateEntity where
  entity_id : String
  state : String
  unit_of_measurement : Option String
deriving DecidableEq

/-- One element of a `config/entity_registry/list` result payload. -/
structure RegEntity where
  entity_id : String
  name : Option String
  original_name : Option String
  area_id : Option String
deriving DecidableEq

/-- Derived entry of the `lights` and `shutters` collections:
`{id, name, state, area_id}`. -/
structure LightView where
  id : String
  name : Option String
  state : Option String
  area_id : Option String
deriving DecidableEq

/-- Derived entry of the `sensors` collection:
`{id, name, value, unit, area_id}`. -/
structure SensorView where
  id : String
  name : Option String
  value : Option String
  unit : Option String
  area_id : Option String
deriving DecidableEq

/-- Derived entry of the `scenes` collection: `{id, name, area_id}`. -/
structure SceneView where
  id : String
  name : Option String
  area_id : Option String
deriving DecidableEq

/-- Derived entry of the `floors` collection: `{id, name, level}`. -/
structure Floor where
  id : String
  name : Option String
  level : Option Int
deriving DecidableEq

/-- Derived entry of the `rooms` collection: `{id, name, floor_id}`. -/
structure Room where
  id : String
  name : Option String
  floor_id : Option String
deriving DecidableEq

/-- `get_states` handling, states half: for every payload entity,
`states.set(entity.entity_id, entity.state)` (src/index.mjs 129-131). -/
def processStates (payload : List StateEntity) (states : JMap) : JMap :=
  payload.foldl (fun m e => jset m e.entity_id e.state) states

/-- `get_states` handling, units half: payload entities whose attributes
include a `unit_of_measurement` update the `units` map
(src/index.mjs 132-136). -/
def processUnits (payload : List StateEntity) (units : JMap) : JMap :=
  (payload.filter (fun e => e.unit_of_measurement.isSome)).foldl
    (fun m e => jset m e.entity_id (e.unit_of_measurement.getD "")) units

/-- Whether the first character list begins with the second. -/
def charsStartWith : List Char → List Char → Bool
  | _, [] => true
  | [], _ :: _ => false
  | c :: cs, p :: ps => c == p && charsStartWith cs ps

/-- JavaScript `String.prototype.startsWith`, on the underlying
character lists. -/
def strStartsWith (s p : String) : Bool := charsStartWith s.data p.data

/-- `config/entity_registry/list` handling, lights: filter on the `light`
identifier prefix, join each entity against the `states` cache
(src/index.mjs 157-166). -/
def mkLights (payload : List RegEntity) (states : JMap) : List LightView :=
  (payload.filter (fun e => strStartsWith e.entity_id "light")).map fun e =>
    { id := e.entity_id
      name := jsOr e.name e.original_name
      state := states e.entity_id
      area_id := e.area_id }

/-- `config/entity_registry/list` handling, shutters: same shape as
lights with the `cover` identifier prefix (src/index.mjs 167-176). -/
def mkShutters (payload : List RegEntity) (states : JMap) : List LightView :=
  (payload.filter (fun e => strStartsWith e.entity_id "cover")).map fun e =>
    { id := e.entity_id
      name := jsOr e.name e.original_name
      state := states e.entity_id
      area_id := e.area_id }

/-- `config/entity_registry/list` handling, sensors: the filter keeps a
payload entity only when its identifier starts with `sensor` AND
`states.get(id)` AND `units.get(id)` are truthy (src/index.mjs 177-192). -/
def mkSensors (payload : List RegEntity) (states units : JMap) : List SensorView :=
  (payload.filter (fun e =>
      strStartsWith e.entity_id "sensor" && truthy (states e.entity_id)
        && truthy (units e.entity_id))).map fun e =>
    { id := e.entity_id
      name := jsOr e.name e.original_name
      value := states e.entity_id
      unit := units e.entity_id
      area_id := e.area_id }

/-- `config/entity_registry/list` handling, scenes (src/index.mjs 193-201). -/
def mkScenes (payload : List RegEntity) : List SceneView :=
  (payload.filter (fun e => strStartsWith e.entity_id "scene")).map fun e =>
    { id := e.entity_id
      name := jsOr e.name e.original_name
      area_id := e.area_id }

/-- An outbound frame `JSON.stringify({type, id, ...params})`; the only
extra params ever sent are `domain`, `service` and `target.entity_id`
of a `call_service` request. -/
structure Frame where
  type : String
  id : Nat
  domain : Option String
  service : Option String
  entity_id : Option String
deriving DecidableEq

/-- The module-level mutable state of the manager: the request-id
counter `id`, the pending-request table `types`, the socket (observed
only through openness and the list of frames sent on it), the raw
caches `states`/`units`, the six derived collections, the two timers
(observed as booleans), and the host error/log surfaces. -/
structure AppState where
  id : Nat
  types : Nat → Option String
  socketOpen : Bool
  frames : List Frame
  states : JMap
  units : JMap
  floors : List Floor
  rooms : List Room
  lights : List LightView
  shutters : List LightView
  sensors : List SensorView
  scenes : List SceneView
  intervalSet : Bool
  reconnectScheduled : Bool
  errors : List String
  logged : List String

/-- `call(type, params)` (src/index.mjs 74-82): if the socket is not
open return `false` and do nothing; otherwise send the frame, record
the request kind under the current id in `types`, increment the id. -/
def call (s : AppState) (ty : String) (domain service target : Option String) :
    Bool × AppState :=
  if s.socketOpen then
    (true,
      { s with
        frames := s.frames ++
          [{ type := ty, id := s.id, domain := domain, service := service,
             entity_id := target }]
        types := fun k => if k = s.id then some ty else s.types k
        id := s.id + 1 })
  else (false, s)

/-- The shared body of the three command actions: one `call_service`
per identifier in list order; the first failed `call` aborts with the
error string, an exhausted list yields `"Done."`
(src/index.mjs 262-310). -/
def dispatchLoop (s : AppState) (domain service : String) (ids : List String) :
    String × AppState :=
  match ids with
  | [] => ("Done.", s)
  | i :: rest =>
    match call s "call_service" (some domain) (some service) (some i) with
    | (true, s1) => dispatchLoop s1 domain service rest
    | (false, s1) => ("Error during internal request.", s1)

/-- `trigger_scenes(ids)`: `domain: "scene", service: "turn_on"`. -/
def trigger_scenes (s : AppState) (ids : List String) : String × AppState :=
  dispatchLoop s "scene" "turn_on" ids

/-- `update_lights(action, ids)`: `domain: "light", service: "turn_" + action`. -/
def update_lights (s : AppState) (action : String) (ids : List String) :
    String × AppState :=
  dispatchLoop s "light" ("turn_" ++ action) ids

/-- `update_shutters(action, ids)`: `domain: "cover", service: action + "_cover"`. -/
def update_shutters (s : AppState) (action : String) (ids : List String) :
    String × AppState :=
  dispatchLoop s "cover" (action ++ "_cover") ids

/-- `socket.onclose` (src/index.mjs 246-257): clear the refresh
interval, schedule a reconnect, reset the id counter to 1, empty the
six derived collections, report `Server unreachable`.  The raw caches
`states`/`units` and the pending-request table `types` are not touched. -/
def onclose (s : AppState) : AppState :=
  { s with
    socketOpen := false
    intervalSet := false
    reconnectScheduled := true
    id := 1
    floors := []
    rooms := []
    lights := []
    shutters := []
    sensors := []
    scenes := []
    errors := s.errors ++ ["Server unreachable"] }

/-- `socket.onclose` in src/src/main.mjs 204-206: the only effect is
scheduling a reconnect (`connectTimeout = setTimeout(connect, 5000)`).
No error is reported, the refresh timer is not cancelled, the derived
collections are not cleared here, and the id counter is untouched. -/
def oncloseMain (s : AppState) : AppState :=
  { s with
    socketOpen := false
    reconnectScheduled := true }

/-- `connect()` in src/src/main.mjs 182-199: cancel any pending
reconnect timer, empty the six derived collections, and open a fresh
socket (not yet open until its open event).  The request-id counter,
the `states`/`units` caches, the pending-request table and the error
surface are all untouched. -/
def connectMain (s : AppState) : AppState :=
  { s with
    reconnectScheduled := false
    floors := []
    rooms := []
    lights := []
    shutters := []
    sensors := []
    scenes := []
    socketOpen := false }

/-- `auth_invalid` handling in src/index.mjs 120-122: the only effect
is `extension.addError(data.message)`. -/
def onAuthInvalidIndex (s : AppState) (msg : String) : AppState :=
  { s with errors := s.errors ++ [msg] }

/-- `auth_invalid` handling in src/src/main.mjs 213-217: schedule a
reconnect, reset the id counter to 1, and log the fixed text
`Authentication failure` to the console (the server-supplied message
is discarded). -/
def onAuthInvalidMain (s : AppState) (_msg : String) : AppState :=
  { s with
    reconnectScheduled := true
    id := 1
    logged := s.logged ++ ["Authentication failure"] }

/-- One structural piece of the regenerated instruction text: the base
preamble, the `defaultInstructions` fallback block, the yaml fence
lines, or the `yaml.dump` of the six static capability models together
with the six live derived collections. -/
inductive InstrPart where
  | base
  | fallback
  | fenceOpen
  | dump (floors : List Floor) (rooms : List Room)
      (lights shutters : List LightView) (sensors : List SensorView)
      (scenes : List SceneView)
  | fenceClose
deriving DecidableEq

/-- Instruction regeneration (src/index.mjs 207-231): the fallback
block is pushed when `!lights.length && !shutters.length &&
!sensors.length && !scenes.length`; otherwise the yaml dump of the
static models and the live collections is pushed between fences.
`floors` and `rooms` do not participate in the emptiness test. -/
def buildInstructions (floors : List Floor) (rooms : List Room)
    (lights shutters : List LightView) (sensors : List SensorView)
    (scenes : List SceneView) : List InstrPart :=
  if lights.isEmpty && shutters.isEmpty && sensors.isEmpty && scenes.isEmpty then
    [.base, .fallback]
  else
    [.base, .fenceOpen, .dump floors rooms lights shutters sensors scenes,
      .fenceClose]

/-- One request as issued through `call`: its kind plus the optional
`call_service` parameters. -/
structure Req where
  type : String
  domain : Option String
  service : Option String
  target : Option String
deriving DecidableEq

/-- A sequence of `call`s in program order (e.g. the five reads of one
refresh cycle followed by command dispatches). -/
def callSeq (s : AppState) (reqs : List Req) : AppState :=
  match reqs with
  | [] => s
  | r :: rs => callSeq (call s r.type r.domain r.service r.target).2 rs

/-- `[start, start+1, ..., start+n-1]`: the ids of `n` consecutively
numbered requests. -/
def consecIds (start n : Nat) : List Nat :=
  match n with
  | 0 => []
  | n + 1 => start :: consecIds (start + 1) n

/-- The module state right after the js module initializes: `id = 1`,
empty maps and collections, no socket open (src/index.mjs 60-72). -/
def initialApp : AppState :=
  { id := 1
    types := fun _ => none
    socketOpen := false
    frames := []
    states := emptyJMap
    units := emptyJMap
    floors := []
    rooms := []
    lights := []
    shutters := []
    sensors := []
    scenes := []
    intervalSet := false
    reconnectScheduled := false
    errors := []
    logged := [] }

/-- A fresh connection: the initial state with the socket open. -/
def connectedApp : AppState := { initialApp with socketOpen := true }

/-- Number of entries of a derived lights collection carrying a given
entity identifier. -/
def countId (l : List LightView) (i : String) : Nat :=
  (l.filter (fun v => v.id == i)).length

/-- An example floor used in concrete instances. -/
def floor0 : Floor := { id := "f1", name := some "Ground", level := some 0 }

/-- An example derived light entry used in concrete instances. -/
def lightView0 : LightView :=
  { id := "light.a", name := some "Lamp", state := some "on", area_id := none }

/-- C10: invoking `trigger_scenes`, `update_lights` or `update_shutters`
with an empty identifier list returns `"Done."` and sends zero frames
(the state, hence the frame list, is unchanged), whether or not the
socket is open. -/
theorem empty_ids_return_done (s : AppState) (action : String) :
    trigger_scenes s [] = ("Done.", s)
    ∧ update_lights s action [] = ("Done.", s)
    ∧ update_shutters s action [] = ("Done.", s) :=
  ⟨rfl, rfl, rfl⟩

/-- C3 counterexample: with the socket not open, invoking a command
action with the empty identifier list returns `"Done."`, not
`"Error during internal request."` as the claim requires for every
list. -/
theorem closed_socket_empty_list_not_error :
    initialApp.socketOpen = false
    ∧ (trigger_scenes initialApp []).1 = "Done."
    ∧ (trigger_scenes initialApp []).1 ≠ "Error during internal request." := by
  refine ⟨rfl, rfl, by decide⟩

/-- C3 (amended): for every NONEMPTY list of target identifiers, each
command action invoked while the socket is not open returns
`"Error during internal request."` and leaves the state — in
particular the list of sent frames — unchanged (zero frames sent). -/
theorem closed_socket_nonempty_command_errors (s : AppState)
    (h : s.socketOpen = false) (i : String) (rest : List String)
    (action : String) :
    trigger_scenes s (i :: rest) = ("Error during internal request.", s)
    ∧ update_lights s action (i :: rest) = ("Error during internal request.", s)
    ∧ update_shutters s action (i :: rest) = ("Error during internal request.", s) := by
  refine ⟨?_, ?_, ?_⟩ <;>
    simp [trigger_scenes, update_lights, update_shutters, dispatchLoop, call, h]

/-- Witness for C3 (amended) at a concrete closed state and list. -/
theorem closed_socket_nonempty_command_errors_witness :
    trigger_scenes initialApp ["scene.x"] = ("Error during internal request.", initialApp) :=
  (closed_socket_nonempty_command_errors initialApp rfl "scene.x" [] "on").1

/-- C4: with the socket open, `update_lights "on" ["light.a","light.b"]`
returns `"Done."` and sends exactly two `call_service` frames with
domain `light` and service `turn_on`, one per identifier in list order,
with the fresh consecutive request identifiers `s.id` and `s.id + 1`;
the counter advances past both. -/
theorem update_lights_on_sends_two_frames (s : AppState) (h : s.socketOpen = true) :
    (update_lights s "on" ["light.a", "light.b"]).1 = "Done."
    ∧ (update_lights s "on" ["light.a", "light.b"]).2.frames
        = s.frames ++
          [{ type := "call_service", id := s.id, domain := some "light",
             service := some "turn_on", entity_id := some "light.a" },
           { type := "call_service", id := s.id + 1, domain := some "light",
             service := some "turn_on", entity_id := some "light.b" }]
    ∧ (update_lights s "on" ["light.a", "light.b"]).2.id = s.id + 2 := by
  refine ⟨?_, ?_, ?_⟩ <;> simp [update_lights, dispatchLoop, call, h]

/-- Witness for C4 at the fresh connected state. -/
theorem update_lights_on_sends_two_frames_witness :
    connectedApp.socketOpen = true
    ∧ (update_lights connectedApp "on" ["light.a", "light.b"]).1 = "Done." :=
  ⟨rfl, (update_lights_on_sends_two_frames connectedApp rfl).1⟩

/-- A connected state with populated raw caches and pending-request
table, used to exhibit what `onclose` does not clear. -/
def cachedApp : AppState :=
  { connectedApp with
    states := jset emptyJMap "sensor.t" "21"
    units := jset emptyJMap "sensor.t" "%"
    types := fun k => if k = 1 then some "get_config" else none }

/-- C5 counterexample: after a close event the `states` and `units`
caches and the pending-request table still hold their entries — the
raw caches do not become empty. -/
theorem close_keeps_raw_caches :
    (onclose cachedApp).states "sensor.t" = some "21"
    ∧ (onclose cachedApp).units "sensor.t" = some "%"
    ∧ (onclose cachedApp).types 1 = some "get_config" :=
  ⟨rfl, rfl, rfl⟩

/-- C5 (amended): on a socket close event the index.mjs handler
empties the six derived collections, reports `Server unreachable`,
cancels the refresh timer and schedules a reconnect, while leaving
the `states` map, the `units` map and the pending-request table
untouched; the main.mjs close handler only schedules a reconnect —
no error report, no refresh-timer cancellation, and the derived
collections are cleared only later when `connect` runs — and the raw
caches survive there too, even through `connect`. -/
theorem close_effects_both_variants (s : AppState) :
    (onclose s).floors = [] ∧ (onclose s).rooms = []
    ∧ (onclose s).lights = [] ∧ (onclose s).shutters = []
    ∧ (onclose s).sensors = [] ∧ (onclose s).scenes = []
    ∧ (onclose s).errors = s.errors ++ ["Server unreachable"]
    ∧ (onclose s).intervalSet = false
    ∧ (onclose s).reconnectScheduled = true
    ∧ (onclose s).states = s.states
    ∧ (onclose s).units = s.units
    ∧ (onclose s).types = s.types
    ∧ (oncloseMain s).reconnectScheduled = true
    ∧ (oncloseMain s).errors = s.errors
    ∧ (oncloseMain s).intervalSet = s.intervalSet
    ∧ (oncloseMain s).floors = s.floors
    ∧ (oncloseMain s).rooms = s.rooms
    ∧ (oncloseMain s).lights = s.lights
    ∧ (oncloseMain s).shutters = s.shutters
    ∧ (oncloseMain s).sensors = s.sensors
    ∧ (oncloseMain s).scenes = s.scenes
    ∧ (connectMain (oncloseMain s)).floors = []
    ∧ (connectMain (oncloseMain s)).rooms = []
    ∧ (connectMain (oncloseMain s)).lights = []
    ∧ (connectMain (oncloseMain s)).shutters = []
    ∧ (connectMain (oncloseMain s)).sensors = []
    ∧ (connectMain (oncloseMain s)).scenes = []
    ∧ (connectMain (oncloseMain s)).states = s.states
    ∧ (connectMain (oncloseMain s)).units = s.units
    ∧ (connectMain (oncloseMain s)).types = s.types := by
  exact ⟨rfl, rfl, rfl, rfl, rfl, rfl, rfl, rfl, rfl, rfl, rfl, rfl, rfl,
    rfl, rfl, rfl, rfl, rfl, rfl, rfl, rfl, rfl, rfl, rfl, rfl, rfl, rfl,
    rfl, rfl, rfl⟩

/-- A connected state whose request counter has advanced, used against
the auth_invalid handlers. -/
def midConnApp : AppState := { connectedApp with id := 7 }

/-- C6 counterexample: the index.mjs `auth_invalid` handler reports the
server-supplied message but neither resets the request-id counter to
its initial value nor schedules a reconnect. -/
theorem auth_invalid_index_no_reset_no_reconnect :
    (onAuthInvalidIndex midConnApp "Invalid access token").id = 7
    ∧ (onAuthInvalidIndex midConnApp "Invalid access token").id ≠ 1
    ∧ (onAuthInvalidIndex midConnApp "Invalid access token").reconnectScheduled = false
    ∧ (onAuthInvalidIndex midConnApp "Invalid access token").errors
        = ["Invalid access token"] := by
  refine ⟨rfl, by decide, rfl, rfl⟩

/-- C6 (amended): on `auth_invalid`, the index.mjs handler appends the
server-supplied message to the error surface and changes nothing else
(counter, reconnect scheduling and sent frames all unchanged, so no
authentication is resent); the main.mjs handler schedules a reconnect
and resets the counter to 1 but logs the fixed text
`Authentication failure` instead of the server message, leaves the
error surface alone, and likewise sends nothing. -/
theorem auth_invalid_handler_effects (s : AppState) (msg : String) :
    (onAuthInvalidIndex s msg).errors = s.errors ++ [msg]
    ∧ (onAuthInvalidIndex s msg).id = s.id
    ∧ (onAuthInvalidIndex s msg).reconnectScheduled = s.reconnectScheduled
    ∧ (onAuthInvalidIndex s msg).frames = s.frames
    ∧ (onAuthInvalidMain s msg).reconnectScheduled = true
    ∧ (onAuthInvalidMain s msg).id = 1
    ∧ (onAuthInvalidMain s msg).logged = s.logged ++ ["Authentication failure"]
    ∧ (onAuthInvalidMain s msg).errors = s.errors
    ∧ (onAuthInvalidMain s msg).frames = s.frames := by
  refine ⟨rfl, rfl, rfl, rfl, rfl, rfl, rfl, rfl, rfl⟩

/-- C9 counterexample: with a nonempty `floors` collection but no
lights, shutters, sensors or scenes, the published instruction parts
still contain the "no devices" fallback block although not all derived
collections are empty. -/
theorem fallback_pushed_despite_nonempty_floors :
    InstrPart.fallback ∈ buildInstructions [floor0] [] [] [] [] []
    ∧ ([floor0] : List Floor) ≠ [] := by
  refine ⟨by decide, by decide⟩

/-- C9 (amended): the instruction parts contain the "no devices"
fallback block if and only if the `lights`, `shutters`, `sensors` and
`scenes` collections are all empty (`floors` and `rooms` play no role
in the test); otherwise they contain the yaml dump of the static
capability models together with all six live derived collections. -/
theorem instructions_fallback_iff_no_devices (floors : List Floor)
    (rooms : List Room) (lights shutters : List LightView)
    (sensors : List SensorView) (scenes : List SceneView) :
    (InstrPart.fallback ∈ buildInstructions floors rooms lights shutters sensors scenes
      ↔ (lights = [] ∧ shutters = [] ∧ sensors = [] ∧ scenes = []))
    ∧ (¬ (lights = [] ∧ shutters = [] ∧ sensors = [] ∧ scenes = []) →
        InstrPart.dump floors rooms lights shutters sensors scenes
          ∈ buildInstructions floors rooms lights shutters sensors scenes) := by
  by_cases hc : lights = [] ∧ shutters = [] ∧ sensors = [] ∧ scenes = []
  · obtain ⟨h1, h2, h3, h4⟩ := hc
    subst h1; subst h2; subst h3; subst h4
    simp [buildInstructions]
  · have hb : (lights.isEmpty && shutters.isEmpty && sensors.isEmpty
        && scenes.isEmpty) = false := by
      rcases not_and_or.mp hc with h | h
      · simp [List.isEmpty_iff, h]
      rcases not_and_or.mp h with h | h
      · simp [List.isEmpty_iff, h]
      rcases not_and_or.mp h with h | h
      · simp [List.isEmpty_iff, h]
      · simp [List.isEmpty_iff, h]
    simp [buildInstructions, hb, hc]

/-- Witness for C9 (amended): both directions at concrete collections. -/
theorem instructions_fallback_iff_no_devices_witness :
    InstrPart.fallback ∈ buildInstructions [floor0] [] [] [] [] []
    ∧ InstrPart.dump [] [] [lightView0] [] [] []
        ∈ buildInstructions [] [] [lightView0] [] [] [] := by
  refine ⟨?_, ?_⟩
  · exact (instructions_fallback_iff_no_devices [floor0] [] [] [] [] []).1.mpr
      ⟨rfl, rfl, rfl, rfl⟩
  · exact (instructions_fallback_iff_no_devices [] [] [lightView0] [] [] []).2
      (by decide)

/-- The frame appended and counter advance of one successful `call`. -/
theorem call_open_snd (s : AppState) (h : s.socketOpen = true)
    (ty : String) (d sv t : Option String) :
    (call s ty d sv t).2
      = { s with
          frames := s.frames ++
            [{ type := ty, id := s.id, domain := d, service := sv,
               entity_id := t }]
          types := fun k => if k = s.id then some ty else s.types k
          id := s.id + 1 } := by
  simp [call, h]

/-- Over an open socket, a call sequence appends frames whose ids are
the consecutive run starting at the current counter. -/
theorem callSeq_frames_map_id (reqs : List Req) (s : AppState)
    (h : s.socketOpen = true) :
    (callSeq s reqs).frames.map Frame.id
      = s.frames.map Frame.id ++ consecIds s.id reqs.length := by
  induction reqs generalizing s with
  | nil => simp [callSeq, consecIds]
  | cons r rs ih =>
    show (callSeq (call s r.type r.domain r.service r.target).2 rs).frames.map
        Frame.id = _
    rw [ih _ (by simp [call, h])]
    simp [call, h, consecIds]

/-- Over an open socket, every frame ever sent has its request kind
recorded in the pending-request table under its identifier, provided
the same already held of the frames sent before. -/
theorem callSeq_types_recorded (reqs : List Req) (s : AppState)
    (h : s.socketOpen = true)
    (hinv : ∀ f ∈ s.frames, f.id < s.id ∧ s.types f.id = some f.type) :
    ∀ f ∈ (callSeq s reqs).frames,
      (callSeq s reqs).types f.id = some f.type := by
  induction reqs generalizing s with
  | nil => exact fun f hf => (hinv f hf).2
  | cons r rs ih =>
    show ∀ f ∈ (callSeq (call s r.type r.domain r.service r.target).2 rs).frames, _
    apply ih
    · simp [call, h]
    · intro f hf
      simp [call, h] at hf
      rcases hf with hf | hf
      · obtain ⟨hlt, hty⟩ := hinv f hf
        refine ⟨by simp [call, h]; omega, ?_⟩
        simp [call, h]
        rw [if_neg (by omega)]
        exact hty
      · subst hf
        exact ⟨by simp [call, h], by simp [call, h]⟩

/-- C8 counterexample: in the main.mjs variant, the close-driven
reconnect path (onclose scheduling `connect`, then `connect` running)
never resets the request-id counter: from a connection whose counter
reached 7, the reconnected state still has counter 7, not 1, and the
first frame sent on the new connection (once its open and auth_ok
events have fired) carries identifier 7. -/
theorem main_close_reconnect_keeps_counter :
    (connectMain (oncloseMain midConnApp)).id = 7
    ∧ (connectMain (oncloseMain midConnApp)).id ≠ 1
    ∧ (call { connectMain (oncloseMain midConnApp) with socketOpen := true }
        "get_config" none none none).2.frames.map Frame.id = [7] := by
  refine ⟨rfl, by decide, rfl⟩

/-- C8 (amended): over an open socket, every successfully sent request
frame carries an identifier exactly one greater than the previous
frame's, continuing from the current counter value; on a fresh
connection the identifiers are 1, 2, 3, … in send order and the
pending-request table records the kind sent under each identifier.
The counter is reset to 1 only by the index.mjs close handler and by
the main.mjs auth_invalid handler: the main.mjs close-driven
reconnect path (onclose, then `connect`) leaves the counter
unchanged, so a post-drop connection does not restart at 1 there. -/
theorem request_ids_consecutive_reset_varies (reqs : List Req) (s : AppState)
    (msg : String) (h : s.socketOpen = true) :
    (callSeq s reqs).frames.map Frame.id
      = s.frames.map Frame.id ++ consecIds s.id reqs.length
    ∧ (callSeq connectedApp reqs).frames.map Frame.id = consecIds 1 reqs.length
    ∧ (∀ f ∈ (callSeq connectedApp reqs).frames,
        (callSeq connectedApp reqs).types f.id = some f.type)
    ∧ (onclose s).id = 1
    ∧ (onAuthInvalidMain s msg).id = 1
    ∧ (connectMain (oncloseMain s)).id = s.id := by
  refine ⟨callSeq_frames_map_id reqs s h, ?_, ?_, rfl, rfl, rfl⟩
  · simpa [connectedApp, initialApp] using
      callSeq_frames_map_id reqs connectedApp rfl
  · exact callSeq_types_recorded reqs connectedApp rfl (by simp [connectedApp, initialApp])

/-- The two leading reads of a refresh cycle, used as a concrete
request sequence. -/
def reqsW : List Req :=
  [{ type := "get_config", domain := none, service := none, target := none },
   { type := "get_states", domain := none, service := none, target := none }]

/-- Witness for C8 (amended) at a concrete two-request sequence and a
concrete mid-connection state. -/
theorem request_ids_consecutive_reset_varies_witness :
    (callSeq connectedApp reqsW).frames.map Frame.id = consecIds 1 2
    ∧ (callSeq connectedApp reqsW).types 1 = some "get_config"
    ∧ (onclose connectedApp).id = 1
    ∧ (connectMain (oncloseMain midConnApp)).id = midConnApp.id := by
  obtain ⟨_, h2, h3, h4, _, _⟩ :=
    request_ids_consecutive_reset_varies reqsW connectedApp "msg" rfl
  obtain ⟨_, _, _, _, _, h6⟩ :=
    request_ids_consecutive_reset_varies reqsW midConnApp "msg" rfl
  have hm : ({ type := "get_config", id := 1, domain := none,
               service := none, entity_id := none } : Frame)
      ∈ (callSeq connectedApp reqsW).frames := by
    decide
  exact ⟨h2, by simpa using h3 _ hm, h4, h6⟩

/-- C7: processing a successful `get_states` result is a merge: the
`states` cache is unchanged at every identifier absent from the
payload, and the `units` cache is unchanged at every identifier for
which no payload entity carries a unit of measurement. -/
theorem get_states_merge_frame (payload : List StateEntity) (st un : JMap)
    (i : String) :
    ((∀ e ∈ payload, e.entity_id ≠ i) → processStates payload st i = st i)
    ∧ ((∀ e ∈ payload, e.entity_id = i → e.unit_of_measurement = none) →
        processUnits payload un i = un i) := by
  constructor
  · induction payload generalizing st with
    | nil => exact fun _ => rfl
    | cons e es ih =>
      intro h
      show processStates es (jset st e.entity_id e.state) i = st i
      rw [ih _ (fun x hx => h x (List.mem_cons_of_mem _ hx))]
      have hne : e.entity_id ≠ i := h e (List.mem_cons_self _ _)
      simp [jset]
      exact fun hh => absurd hh.symm hne
  · induction payload generalizing un with
    | nil => exact fun _ => rfl
    | cons e es ih =>
      intro h
      by_cases hu : e.unit_of_measurement.isSome
      · have hstep : processUnits (e :: es) un
            = processUnits es (jset un e.entity_id (e.unit_of_measurement.getD "")) := by
          simp [processUnits, List.filter_cons, hu]
        rw [hstep, ih _ (fun x hx hxe => h x (List.mem_cons_of_mem _ hx) hxe)]
        have hne : e.entity_id ≠ i := by
          intro he
          rw [h e (List.mem_cons_self _ _) he] at hu
          simp at hu
        simp [jset]
        exact fun hh => absurd hh.symm hne
      · have hstep : processUnits (e :: es) un = processUnits es un := by
          simp [processUnits, List.filter_cons, hu]
        rw [hstep]
        exact ih un (fun x hx hxe => h x (List.mem_cons_of_mem _ hx) hxe)

/-- A concrete `get_states` payload mentioning only `light.a`. -/
def statesPayloadW : List StateEntity :=
  [{ entity_id := "light.a", state := "on", unit_of_measurement := none }]

/-- Witness for C7: an entry for an identifier absent from the payload
survives both cache updates unchanged. -/
theorem get_states_merge_frame_witness :
    processStates statesPayloadW (jset emptyJMap "sensor.z" "5") "sensor.z"
        = jset emptyJMap "sensor.z" "5" "sensor.z"
    ∧ processUnits statesPayloadW (jset emptyJMap "sensor.z" "%") "sensor.z"
        = jset emptyJMap "sensor.z" "%" "sensor.z" := by
  obtain ⟨h1, h2⟩ := get_states_merge_frame statesPayloadW
    (jset emptyJMap "sensor.z" "5") (jset emptyJMap "sensor.z" "%") "sensor.z"
  exact ⟨h1 (by decide), h2 (by decide)⟩

/-- Occurrence count in the derived lights collection, expressed as an
occurrence count among the payload's entity identifiers. -/
theorem countId_mkLights (payload : List RegEntity) (st : JMap) (i : String) :
    countId (mkLights payload st) i
      = ((payload.map RegEntity.entity_id).filter
          (fun x => strStartsWith x "light" && x == i)).length := by
  induction payload with
  | nil => rfl
  | cons e es ih =>
    by_cases hp : strStartsWith e.entity_id "light"
    · by_cases hi : e.entity_id == i
      · simp [countId, mkLights, List.filter_cons, hp, hi] at ih ⊢
        omega
      · simp [countId, mkLights, List.filter_cons, hp, hi] at ih ⊢
        exact ih
    · simp [countId, mkLights, List.filter_cons, hp] at ih ⊢
      exact ih

/-- In a duplicate-free list a predicate satisfied only by one listed
element keeps exactly one element. -/
theorem length_filter_eq_one_of_nodup (l : List String) (i : String)
    (p : String → Bool) (hd : l.Nodup) (hi : i ∈ l) (hpi : p i = true)
    (hponly : ∀ x, p x = true → x = i) :
    (l.filter p).length = 1 := by
  induction l with
  | nil => cases hi
  | cons a as ih =>
    rw [List.nodup_cons] at hd
    rcases List.mem_cons.mp hi with rfl | hmem
    · have hnil : as.filter p = [] := by
        rw [List.filter_eq_nil_iff]
        intro x hx hpx
        have hxi := hponly x hpx
        subst hxi
        exact hd.1 hx
      simp [List.filter_cons, hpi, hnil]
    · by_cases ha : p a
      · exfalso
        have := hponly a ha
        subst this
        exact hd.1 hmem
      · simp only [List.filter_cons, ha]
        exact ih hd.2 hmem

/-- C1 (amended): provided the registry payload lists each entity
identifier at most once, every payload entity whose identifier starts
with `light` appears in the derived `lights` collection exactly once;
and unconditionally every derived entry's `state` is the value held by
the `states` cache for its identifier — `none` (absent) when no state
was ever recorded. -/
theorem lights_appear_once_with_cached_state (payload : List RegEntity)
    (st : JMap) (hd : (payload.map RegEntity.entity_id).Nodup)
    (e : RegEntity) (he : e ∈ payload)
    (hp : strStartsWith e.entity_id "light" = true) :
    countId (mkLights payload st) e.entity_id = 1
    ∧ ∀ v ∈ mkLights payload st, v.state = st v.id := by
  constructor
  · rw [countId_mkLights]
    refine length_filter_eq_one_of_nodup _ e.entity_id _ hd
      (List.mem_map_of_mem _ he) (by simp [hp]) ?_
    intro x hx
    simp at hx
    exact hx.2
  · intro v hv
    simp only [mkLights, List.mem_map, List.mem_filter] at hv
    obtain ⟨x, _, rfl⟩ := hv
    rfl

/-- A registry payload naming the same light identifier twice. -/
def dupPayload : List RegEntity :=
  [{ entity_id := "light.a", name := some "Lamp", original_name := none,
     area_id := none },
   { entity_id := "light.a", name := none, original_name := some "Lamp",
     area_id := none }]

/-- C1 counterexample: a registry payload carrying two entries for
`light.a` yields a derived `lights` collection in which that
identifier appears twice, not exactly once. -/
theorem duplicate_light_listed_twice :
    countId (mkLights dupPayload emptyJMap) "light.a" = 2 := by decide

/-- A registry payload with one light and one sensor. -/
def regPayloadW : List RegEntity :=
  [{ entity_id := "light.a", name := some "Lamp", original_name := none,
     area_id := none },
   { entity_id := "sensor.t", name := none, original_name := some "Temp",
     area_id := none }]

/-- Witness for C1 (amended) on a concrete duplicate-free payload. -/
theorem lights_appear_once_witness :
    countId (mkLights regPayloadW (jset emptyJMap "light.a" "on")) "light.a" = 1 :=
  (lights_appear_once_with_cached_state regPayloadW
    (jset emptyJMap "light.a" "on") (by decide)
    { entity_id := "light.a", name := some "Lamp", original_name := none,
      area_id := none }
    (by decide) (by decide)).1

/-- C2 (amended): an identifier appears in the derived `sensors`
collection if and only if some payload entity carries it, it starts
with `sensor`, and the `states` and `units` caches both hold a TRUTHY
(present and nonempty) value for it; consequently removing either
cached value removes the identifier from the next derived view. -/
theorem sensors_iff_truthy_state_and_unit (payload : List RegEntity)
    (st un : JMap) (i : String) :
    ((∃ v ∈ mkSensors payload st un, v.id = i) ↔
      ((∃ e ∈ payload, e.entity_id = i) ∧ strStartsWith i "sensor" = true
        ∧ truthy (st i) = true ∧ truthy (un i) = true))
    ∧ (∀ v ∈ mkSensors payload (jdelete st i) un, v.id ≠ i)
    ∧ (∀ v ∈ mkSensors payload st (jdelete un i), v.id ≠ i) := by
  refine ⟨⟨?_, ?_⟩, ?_, ?_⟩
  · rintro ⟨v, hv, rfl⟩
    simp only [mkSensors, List.mem_map, List.mem_filter] at hv
    obtain ⟨x, ⟨hxm, hxc⟩, rfl⟩ := hv
    simp only [Bool.and_eq_true] at hxc
    exact ⟨⟨x, hxm, rfl⟩, hxc.1.1, hxc.1.2, hxc.2⟩
  · rintro ⟨⟨e, he, rfl⟩, hs, h1, h2⟩
    refine ⟨{ id := e.entity_id, name := jsOr e.name e.original_name,
              value := st e.entity_id, unit := un e.entity_id,
              area_id := e.area_id }, ?_, rfl⟩
    simp only [mkSensors, List.mem_map, List.mem_filter]
    exact ⟨e, ⟨he, by simp [hs, h1, h2]⟩, rfl⟩
  · intro v hv
    simp only [mkSensors, List.mem_map, List.mem_filter] at hv
    obtain ⟨x, ⟨_, hxc⟩, rfl⟩ := hv
    intro hxi
    simp only [Bool.and_eq_true] at hxc
    rw [show x.entity_id = i from hxi] at hxc
    simp [jdelete, truthy] at hxc
  · intro v hv
    simp only [mkSensors, List.mem_map, List.mem_filter] at hv
    obtain ⟨x, ⟨_, hxc⟩, rfl⟩ := hv
    intro hxi
    simp only [Bool.and_eq_true] at hxc
    rw [show x.entity_id = i from hxi] at hxc
    simp [jdelete, truthy] at hxc

/-- A registry payload with a single sensor entity. -/
def sensorPayloadW : List RegEntity :=
  [{ entity_id := "sensor.a", name := some "Temp", original_name := none,
     area_id := none }]

/-- Witness for C2 (amended): with a truthy state and unit recorded,
`sensor.a` appears in the derived view. -/
theorem sensors_iff_truthy_witness :
    ∃ v ∈ mkSensors sensorPayloadW (jset emptyJMap "sensor.a" "20")
        (jset emptyJMap "sensor.a" "%"), v.id = "sensor.a" :=
  (sensors_iff_truthy_state_and_unit sensorPayloadW
    (jset emptyJMap "sensor.a" "20") (jset emptyJMap "sensor.a" "%")
    "sensor.a").1.mpr (by decide)

/-- A registry payload with the sensor entity `sensor.t`. -/
def sensorTPayload : List RegEntity :=
  [{ entity_id := "sensor.t", name := some "Temp", original_name := none,
     area_id := none }]

/-- C2 counterexample: `sensor.t` has a state recorded in the `states`
cache (the empty string) and a unit recorded in the `units` cache, yet
the derived `sensors` collection is empty, because the JavaScript
truthiness test rejects the empty string. -/
theorem sensor_with_recorded_empty_state_excluded :
    (jset emptyJMap "sensor.t" "") "sensor.t" = some ""
    ∧ (jset emptyJMap "sensor.t" "%") "sensor.t" = some "%"
    ∧ mkSensors sensorTPayload (jset emptyJMap "sensor.t" "")
        (jset emptyJMap "sensor.t" "%") = [] := by decide

end TalkopsHA
